import Mathlib

/-!
Shallow embedding of the Element-Targeting Guidance Engine of the
Chrome-AI-Troubleshooter extension: the DOM Analyzer (Relevance Engine,
`DOMAnalyzer` in the dom-analyzer source file) and the Visual Guide
(`VisualGuide` in src/visual-guide.js), together with theorems checking the
specification's claims about them.

Modelling conventions:
  * The DOM is a flat list of elements in document order (`Doc`); each
    element carries the attributes, computed style and bounding rect the
    engine reads.  Ancestor chains are outside this flat model, so the
    `path` field of the metadata snapshot (`getElementPath`) and the
    `attributes` map are not modelled; no claim mentions them.
  * JavaScript numbers that the engine compares (`getBoundingClientRect`,
    `window.innerWidth/Height`) are modelled as `Int`.
  * JavaScript truthiness of a string is `!s.isEmpty`; a nullable string
    attribute is `Option String`.
  * `element.className` is a `String` for HTML elements but an
    `SVGAnimatedString` object for SVG elements; calling `.split` on the
    latter throws a TypeError.  `ClassName` keeps both cases so that the
    `try/catch` behaviour of `getElementMetadata` is visible.
  * Exceptions are modelled explicitly where the source can throw; a
    caught exception becomes the `Option`/fallback value the catch block
    produces.
-/

namespace DarkVoir

/-- Bounding client rect, as read from `getBoundingClientRect`. -/
structure Rect where
  top : Int
  bottom : Int
  left : Int
  right : Int
  width : Int
  height : Int
deriving Repr, DecidableEq, Inhabited

/-- The runtime value of `element.className`: a plain string on HTML
elements, an `SVGAnimatedString` object (truthy, but `.split` throws) on
SVG elements. -/
inductive ClassName where
  | str (s : String)
  | svgObj
deriving Repr, DecidableEq, Inhabited

/-- A DOM element, with the attributes, style and geometry the engine
reads.  `eid` is node identity (JavaScript object identity, used by the
`Set` deduplication).  Absent attributes read through `getAttribute` are
`none`; attributes read as properties (`element.id`, `element.name`, ...)
are `""` when absent, matching the JavaScript defaults. -/
structure Elem where
  eid : Nat
  tagName : String
  id : String
  className : ClassName
  textContent : String
  placeholder : String
  title : String
  value : String
  name : String
  typeAttr : String
  href : String
  ariaLabel : Option String
  ariaDescribedBy : Option String
  role : Option String
  dataTestid : Option String
  rect : Rect
  display : String
  visibility : String
  opacity : String
  disabled : Bool
  required : Bool
  hasOnclick : Bool
  cursorPointer : Bool
  contentEditable : Bool
deriving Repr, DecidableEq, Inhabited

/-- The page: elements in document order plus the window geometry read by
the engine. -/
structure Doc where
  elems : List Elem
  innerWidth : Int
  innerHeight : Int
  scrollX : Int
  scrollY : Int
deriving Repr, DecidableEq, Inhabited

/-- JavaScript `toLowerCase`, character by character.  (Lean's own
`String.toLower` is byte-position based and does not reduce in the kernel,
so the character-list equivalent is used throughout.) -/
def lowerStr (s : String) : String := String.mk (s.data.map Char.toLower)

/-- Split a character list at every character satisfying `p` (two adjacent
separators yield an empty piece in between).  JavaScript's `split(/\s+/)`
collapses separator runs instead; every use below filters out the empty or
short pieces, after which the two semantics agree.  JavaScript's
`split(' ')` splits at each single space, which is exactly this. -/
def splitChars (p : Char → Bool) : List Char → List (List Char)
  | [] => [[]]
  | c :: cs =>
    let r := splitChars p cs
    if p c then [] :: r
    else (c :: r.headD []) :: r.tail

/-- String version of `splitChars`. -/
def splitStr (p : Char → Bool) (s : String) : List String :=
  (splitChars p s.data).map String.mk

/-- Whether the pattern occurs at the start of the text. -/
def startsChars : List Char → List Char → Bool
  | [], _ => true
  | _ :: _, [] => false
  | a :: as, b :: bs => a == b && startsChars as bs

/-- Whether the pattern occurs anywhere in the text. -/
def hasSubstr (pat : List Char) : List Char → Bool
  | [] => pat.isEmpty
  | l@(_ :: cs) => startsChars pat l || hasSubstr pat cs

/-- JavaScript `String.prototype.includes`: substring containment; the
empty pattern is contained in every string. -/
def jsIncludes (s pat : String) : Bool := hasSubstr pat.data s.data

/-- JavaScript `trim`: strip whitespace from both ends. -/
def trimStr (s : String) : String :=
  String.mk (((s.data.dropWhile Char.isWhitespace).reverse.dropWhile Char.isWhitespace).reverse)

/-- JavaScript `substring(0, n)`, on the character model. -/
def takeStr (n : Nat) (s : String) : String := String.mk (s.data.take n)

/-- A nullable string attribute lowered as the source's
`x?.toLowerCase() || ''`. -/
def optLower (o : Option String) : String := lowerStr (o.getD "")

/-- JavaScript `x || null` on a string property: `""` becomes `null`. -/
def jsOrNull (s : String) : Option String := if s == "" then none else some s

/-- JavaScript `getAttribute(...) || null`: absent stays `null`, `""`
becomes `null`. -/
def jsOptOrNull (o : Option String) : Option String :=
  match o with
  | some s => jsOrNull s
  | none => none

/-- DOMAnalyzer.isElementInteractive (dom-analyzer source, lines 179-212):
non-zero bounding box, within the viewport extended by a 500px margin, not
`display:none`/`visibility:hidden`/`opacity:0`, and not `disabled`. -/
def isElementInteractive (d : Doc) (e : Elem) : Bool :=
  if e.rect.width == 0 || e.rect.height == 0 then false
  else if !(e.rect.top < d.innerHeight + 500 && e.rect.bottom > -500 &&
            e.rect.left < d.innerWidth + 500 && e.rect.right > -500) then false
  else if e.display == "none" || e.visibility == "hidden" || e.opacity == "0" then false
  else if e.disabled then false
  else true

/-- VisualGuide.isElementVisible (src/visual-guide.js, lines 391-406):
non-zero box and not `display:none`/`visibility:hidden`/`opacity:0`.
Unlike `isElementInteractive` it has no viewport-proximity check and no
`disabled` check. -/
def isElementVisible (e : Elem) : Bool :=
  0 < e.rect.width && 0 < e.rect.height &&
  !(e.display == "none") && !(e.visibility == "hidden") && !(e.opacity == "0")

/-- DOMAnalyzer.isElementClickable (dom-analyzer source, lines 218-234). -/
def isElementClickable (e : Elem) : Bool :=
  ["a", "button", "input", "select", "textarea"].contains (lowerStr e.tagName) ||
  (match e.role with
   | some r => ["button", "link", "tab", "menuitem", "checkbox", "radio"].contains r
   | none => false) ||
  e.hasOnclick || e.cursorPointer

/-- DOMAnalyzer.isElementInput (dom-analyzer source, lines 240-248). -/
def isElementInput (e : Elem) : Bool :=
  lowerStr e.tagName == "input" || lowerStr e.tagName == "textarea" || e.contentEditable

/-- The fixed stopword list of DOMAnalyzer.extractKeywords (dom-analyzer
source, line 72). -/
def commonWords : List String :=
  ["the", "a", "an", "where", "is", "how", "do", "i", "to", "can", "find",
   "what", "why", "when", "which", "and", "or", "not", "but", "me", "on",
   "in", "for", "with", "from", "as", "if"]

/-- DOMAnalyzer.extractKeywords (dom-analyzer source, lines 68-76):
lower-case, split on whitespace, drop stopwords and tokens of length at
most 2.  The source splits with the regex `\s+`; splitting on each
whitespace character instead only adds empty tokens, which the length
filter removes, so the output is identical. -/
def extractKeywords (query : String) : List String :=
  if query == "" then []
  else
    (splitStr (fun c => c.isWhitespace) (lowerStr query)).filter
      fun w => !commonWords.contains w && w.length > 2

/-- The four phrase lists of `CONSTANTS.USER_INTENTS`.  Modelled from the
spec: the file constants.js that defines `CONSTANTS` is a source of this
repository (background.js lists it among the injected content scripts) but
is not among the staged files; the spec says only that `detectIntent`
"tests it against four fixed, ordered phrase lists".  Every theorem below
quantifies over the lists, so nothing depends on their contents. -/
structure UserIntents where
  findElement : List String
  doAction : List String
  fixError : List String
  explain : List String
deriving Repr, DecidableEq, Inhabited

/-- DOMAnalyzer.detectIntent (dom-analyzer source, lines 39-60).  The
`Option` on the intents models the `CONSTANTS && CONSTANTS.USER_INTENTS`
truthiness guard. -/
def detectIntent (ui : Option UserIntents) (query : String) : String :=
  if query == "" then "general"
  else
    let lowerQuery := lowerStr query
    match ui with
    | some c =>
      if c.findElement.any fun phrase => jsIncludes lowerQuery phrase then "find_element"
      else if c.doAction.any fun phrase => jsIncludes lowerQuery phrase then "do_action"
      else if c.fixError.any fun phrase => jsIncludes lowerQuery phrase then "fix_error"
      else if c.explain.any fun phrase => jsIncludes lowerQuery phrase then "explain"
      else "general"
    | none => "general"

/-- Elements matched by
`querySelectorAll('button, input[type="button"], input[type="submit"], [role="button"]')`. -/
def poolButtons (e : Elem) : Bool :=
  lowerStr e.tagName == "button" ||
  (lowerStr e.tagName == "input" && (e.typeAttr == "button" || e.typeAttr == "submit")) ||
  e.role == some "button"

/-- Elements matched by `querySelectorAll('a')`. -/
def poolLinks (e : Elem) : Bool := lowerStr e.tagName == "a"

/-- Elements matched by `querySelectorAll('input, textarea, select')`. -/
def poolFormFields (e : Elem) : Bool :=
  lowerStr e.tagName == "input" || lowerStr e.tagName == "textarea" ||
  lowerStr e.tagName == "select"

/-- Elements matched by `querySelectorAll('label')`. -/
def poolLabels (e : Elem) : Bool := lowerStr e.tagName == "label"

/-- Elements matched by `querySelectorAll('[aria-label], [aria-describedby]')`. -/
def poolAria (e : Elem) : Bool := e.ariaLabel.isSome || e.ariaDescribedBy.isSome

/-- DOMAnalyzer.elementMatchesKeyword (dom-analyzer source, lines
145-171): case-insensitive substring containment against eight textual
surfaces. -/
def elementMatchesKeyword (e : Elem) (keyword : String) : Bool :=
  if keyword == "" then false
  else
    jsIncludes (lowerStr e.textContent) keyword ||
    jsIncludes (lowerStr e.placeholder) keyword ||
    jsIncludes (optLower e.ariaLabel) keyword ||
    jsIncludes (lowerStr e.title) keyword ||
    jsIncludes (lowerStr e.value) keyword ||
    jsIncludes (lowerStr e.id) keyword ||
    jsIncludes (lowerStr e.name) keyword ||
    jsIncludes (optLower e.ariaDescribedBy) keyword

/-- One keyword's scan over the five fixed element pools, in the order of
the source (dom-analyzer source, lines 88-128): each pool contributes, in
document order, its elements that match the keyword and pass
`isElementInteractive`. -/
def searchPools (d : Doc) (keyword : String) : List Elem :=
  ((d.elems.filter poolButtons).filter fun e =>
    elementMatchesKeyword e keyword && isElementInteractive d e) ++
  ((d.elems.filter poolLinks).filter fun e =>
    elementMatchesKeyword e keyword && isElementInteractive d e) ++
  ((d.elems.filter poolFormFields).filter fun e =>
    elementMatchesKeyword e keyword && isElementInteractive d e) ++
  ((d.elems.filter poolLabels).filter fun e =>
    elementMatchesKeyword e keyword && isElementInteractive d e) ++
  ((d.elems.filter poolAria).filter fun e =>
    elementMatchesKeyword e keyword && isElementInteractive d e)

/-- `[...new Set(elements)]`: deduplication by node identity, keeping the
first occurrence of each node, in insertion order. -/
def dedupByEid (l : List Elem) : List Elem :=
  l.foldl (fun acc e => if acc.any fun x => x.eid == e.eid then acc else acc ++ [e]) []

/-- The comparator weight of the final sort:
`this.isElementClickable(x) ? 1 : 0`. -/
def clickScore (e : Elem) : Nat := if isElementClickable e then 1 else 0

/-- DOMAnalyzer.findRelevantElements (dom-analyzer source, lines 84-139):
scan the pools for the first five keywords, deduplicate by node identity,
then stable-sort clickable elements first (the JavaScript
`sort((a, b) => bClickable - aClickable)` is stable; modelled by
`List.insertionSort` with the matching relation).  The intent argument
is received but not used, as in the source. -/
def findRelevantElements (d : Doc) (keywords : List String) (_intent : String) : List Elem :=
  let processedKeywords := keywords.take 5
  let elements := processedKeywords.flatMap (searchPools d)
  let uniqueElements := dedupByEid elements
  List.insertionSort (fun a b => clickScore b ≤ clickScore a) uniqueElements

/-- The `position` block of the metadata snapshot. -/
structure Position where
  top : Int
  left : Int
  width : Int
  height : Int
  viewportTop : Int
  viewportLeft : Int
  viewportWidth : Int
  viewportHeight : Int
deriving Repr, DecidableEq

/-- The CandidateElement metadata snapshot built by
DOMAnalyzer.getElementMetadata (dom-analyzer source, lines 257-301).  The
`path` and `attributes` fields are outside the flat DOM model (see the
file comment); no claim mentions them. -/
structure Metadata where
  tagName : String
  id : Option String
  classes : List String
  text : String
  value : Option String
  placeholder : Option String
  ariaLabel : Option String
  ariaDescribedBy : Option String
  role : Option String
  typeAttr : Option String
  href : Option String
  name : Option String
  selector : String
  position : Position
  isVisible : Bool
  isClickable : Bool
  isInput : Bool
  isDisabled : Bool
  isRequired : Bool
deriving Repr, DecidableEq

/-- DOMAnalyzer.generateSelector (dom-analyzer source, lines 331-370):
`#id`, then `[data-testid=...]`, then `[aria-label=...]`, then
`[name=...]`, then `tag.class1.class2` (at most two classes).  The
`typeof element.className === 'string'` guard skips the class branch for
SVG elements. -/
def generateSelector (e : Elem) : String :=
  let tagClass :=
    let sel := lowerStr e.tagName
    match e.className with
    | ClassName.svgObj => sel
    | ClassName.str cls =>
      if cls == "" then sel
      else
        let trimmed := trimStr cls
        let classes :=
          (if trimmed == "" then [""]
           else (splitStr (fun c => c.isWhitespace) trimmed).filter fun c => !(c == "")).take 2
        if classes.length > 0 then
          sel ++ "." ++ String.mk (List.intercalate ['.'] (classes.map String.data))
        else sel
  let byName := if e.name == "" then tagClass else "[name=\"" ++ e.name ++ "\"]"
  let byAria :=
    match e.ariaLabel with
    | some a => if a == "" then byName else "[aria-label=\"" ++ a ++ "\"]"
    | none => byName
  let byTestid :=
    match e.dataTestid with
    | some t => if t == "" then byAria else "[data-testid=\"" ++ t ++ "\"]"
    | none => byAria
  if e.id == "" then byTestid else "#" ++ e.id

/-- DOMAnalyzer.getElementMetadata (dom-analyzer source, lines 257-301).
The whole body sits in a `try` whose `catch` returns `null`: the one
throwing operation in the model is `element.className.split(' ')` on an
SVG element, whose `className` is a truthy object without `.split`
(`typeof` guards protect the same access in `generateSelector`).  The
snapshot is built only when no exception occurs. -/
def getElementMetadata (d : Doc) (e : Elem) : Option Metadata :=
  match e.className with
  | ClassName.svgObj => none
  | ClassName.str cls =>
    some {
      tagName := if lowerStr e.tagName == "" then "unknown" else lowerStr e.tagName,
      id := jsOrNull e.id,
      classes :=
        if cls == "" then []
        else (splitStr (fun c => c == ' ') cls).filter fun c => c.length > 0,
      text := takeStr 100 (trimStr e.textContent),
      value := jsOrNull e.value,
      placeholder := jsOrNull e.placeholder,
      ariaLabel := jsOptOrNull e.ariaLabel,
      ariaDescribedBy := jsOptOrNull e.ariaDescribedBy,
      role := jsOptOrNull e.role,
      typeAttr := jsOrNull e.typeAttr,
      href := jsOrNull e.href,
      name := jsOrNull e.name,
      selector := generateSelector e,
      position := {
        top := e.rect.top + d.scrollY,
        left := e.rect.left + d.scrollX,
        width := e.rect.width,
        height := e.rect.height,
        viewportTop := e.rect.top,
        viewportLeft := e.rect.left,
        viewportWidth := e.rect.width,
        viewportHeight := e.rect.height },
      isVisible := isElementInteractive d e,
      isClickable := isElementClickable e,
      isInput := isElementInput e,
      isDisabled := e.disabled,
      isRequired := e.required }

/-- DOMAnalyzer.analyzeForQuery (dom-analyzer source, lines 21-31).  The
query is `Option String`: `none` models a non-string argument, and the
`!query` guard also sends `""` to the empty list.  The result entries are
`Option Metadata` because `getElementMetadata` returns `null` for an
element whose metadata extraction threw, and `.map` keeps that `null` in
the list. -/
def analyzeForQuery (ui : Option UserIntents) (d : Doc) (query : Option String) :
    List (Option Metadata) :=
  match query with
  | none => []
  | some q =>
    if q == "" then []
    else
      let intent := detectIntent ui q
      let keywords := extractKeywords q
      let elements := findRelevantElements d keywords intent
      (elements.take 10).map fun el => getElementMetadata d el

/-- Model of `document.querySelector` restricted to ID selectors: for a
string of the form `"#" ++ ident`, the first element in document order
whose id attribute is `ident`.  An element with an empty id is matched by
no id selector (and `querySelector("#")` is a syntax error in the
browser), hence the non-emptiness conjunct.  Other selector shapes are
outside this model; the guide steps and generated selectors the claims
exercise are all id selectors. -/
def querySelectorHash (d : Doc) (sel : String) : Option Elem :=
  d.elems.find? fun e => !(e.id == "") && ("#" ++ e.id == sel)

/-- Elements matched by
`querySelectorAll('button, a, input, [role="button"], label')`, the fixed
tag set of the text-matching strategy (src/visual-guide.js, line 371). -/
def textPoolSel (e : Elem) : Bool :=
  ["button", "a", "input", "label"].contains (lowerStr e.tagName) || e.role == some "button"

/-- A guide step (src/visual-guide.js; spec §3).  Absent optional fields
are `none`; the JavaScript truthiness guards of `findStepElement` treat
`some ""` like an absent field. -/
structure Step where
  selector : Option String
  text : Option String
  ariaLabel : Option String
  message : String
  description : Option String
  action : Option String
  value : Option String
  autoExecute : Bool
deriving Repr, DecidableEq, Inhabited

/-- The first strategy of VisualGuide.findStepElement (src/visual-guide.js,
lines 357-366): `document.querySelector(step.selector)`, kept only when the
hit passes `isElementVisible`.  The `try/catch` around the query maps a
selector error to "no hit" and falls through, as the source does. -/
def selStrategy (d : Doc) (step : Step) : Option Elem :=
  match step.selector with
  | some sel =>
    if sel == "" then none
    else
      match querySelectorHash d sel with
      | some el => if isElementVisible el then some el else none
      | none => none
  | none => none

/-- The second strategy of VisualGuide.findStepElement (src/visual-guide.js,
lines 369-378): the first element of the fixed tag pool whose text content
contains `step.text` case-insensitively and which passes
`isElementVisible`. -/
def textStrategy (d : Doc) (step : Step) : Option Elem :=
  match step.text with
  | some t =>
    if t == "" then none
    else
      (d.elems.filter textPoolSel).find? fun el =>
        jsIncludes (lowerStr el.textContent) (lowerStr t) && isElementVisible el
  | none => none

/-- The third strategy of VisualGuide.findStepElement (src/visual-guide.js,
lines 381-386): `document.querySelector('[aria-label="..."]')` (first
exact attribute match in document order), kept only when visible. -/
def ariaStrategy (d : Doc) (step : Step) : Option Elem :=
  match step.ariaLabel with
  | some a =>
    if a == "" then none
    else
      match d.elems.find? (fun el => el.ariaLabel == some a) with
      | some el => if isElementVisible el then some el else none
      | none => none
  | none => none

/-- VisualGuide.findStepElement (src/visual-guide.js, lines 353-389): the
three early-return strategies in order, selector then text then
aria-label. -/
def findStepElement (d : Doc) (step : Step) : Option Elem :=
  (selStrategy d step).orElse fun _ =>
    (textStrategy d step).orElse fun _ => ariaStrategy d step

/-- The direction with the maximal free space, ties resolved to the first
of top, bottom, left, right — the property the spec states for
`calculateBestPosition`, written independently of the sort the source
uses. -/
def bestPositionSpec (t b l r : Int) : String :=
  if t ≥ b ∧ t ≥ l ∧ t ≥ r then "top"
  else if b ≥ t ∧ b ≥ l ∧ b ≥ r then "bottom"
  else if l ≥ t ∧ l ≥ b ∧ l ≥ r then "left"
  else "right"

/-- VisualGuide.calculateBestPosition (src/visual-guide.js, lines 455-470):
free space in the four directions, stable sort descending by space
(JavaScript's `sort((a, b) => b.space - a.space)`), first entry wins. -/
def calculateBestPosition (d : Doc) (rect : Rect) : String :=
  let spaceTop := rect.top
  let spaceBottom := d.innerHeight - rect.bottom
  let spaceLeft := rect.left
  let spaceRight := d.innerWidth - rect.right
  let spaces : List (String × Int) :=
    [("top", spaceTop), ("bottom", spaceBottom), ("left", spaceLeft), ("right", spaceRight)]
  ((List.insertionSort (fun a b => b.2 ≤ a.2) spaces).headD ("", 0)).1

/-- The guide's message bubble: its text and which of the `success`/`error`
CSS classes it carries. -/
structure Msg where
  text : String
  error : Bool
  success : Bool
deriving Repr, DecidableEq, Inhabited

/-- Observable events of a guide run, recorded in order.  `slept n` marks
an `await this.sleep(n)` suspension point; `timerSet n` a `setTimeout`
scheduling; `typeErrorThrown` the TypeError raised at
`this.highlightElement(element)` (src/visual-guide.js, line 329): the
constructor's instance field `highlightElement = null` (line 13) shadows
the prototype method of the same name (line 408), so the call target is
`null` (or, later, a DOM node) and never a function. -/
inductive Ev where
  | showStepCalled (i : Nat)
  | invalidStep
  | elementNotFound (i : Nat)
  | errorMessageShown (text : String)
  | successMessageShown (text : String)
  | slept (ms : Nat)
  | scrolled (eid : Nat)
  | typeErrorThrown
  | completed
  | timerSet (ms : Nat)
  | stopped
deriving Repr, DecidableEq

/-- The VisualGuide instance state (src/visual-guide.js, constructor lines
8-20) plus the presence/content of the overlay DOM nodes it owns and the
event trace.  `overlayEl`, `controlsEl` record whether the scrim and
control bar exist; `indicatorEl` the step indicator's text; `highlightEl`
and `pointerEl` the id of the element a highlight/pointer node is attached
to; `messageEl` the message bubble.  The instance field shadowing the
`highlightElement` method means no highlight node is ever created, but the
field is modelled all the same. -/
structure GuideState where
  isActive : Bool
  currentStep : Nat
  steps : List Step
  guideHistory : List (Nat × Step)
  overlayEl : Bool
  indicatorEl : Option String
  controlsEl : Bool
  highlightEl : Option Nat
  messageEl : Option Msg
  pointerEl : Option Nat
  trace : List Ev
deriving Repr, DecidableEq

/-- The state after the constructor runs. -/
def initState : GuideState :=
  { isActive := false, currentStep := 0, steps := [], guideHistory := [],
    overlayEl := false, indicatorEl := none, controlsEl := false,
    highlightEl := none, messageEl := none, pointerEl := none, trace := [] }

/-- VisualGuide.showErrorMessage (src/visual-guide.js, lines 603-609): the
text and classes of the message bubble are updated only when a bubble
already exists; otherwise nothing happens and nothing is displayed. -/
def showErrorMessageOp (text : String) (s : GuideState) : GuideState :=
  match s.messageEl with
  | some m =>
    { s with messageEl := some { m with text := text, error := true, success := false },
             trace := s.trace ++ [Ev.errorMessageShown text] }
  | none => s

/-- VisualGuide.showSuccessMessage (src/visual-guide.js, lines 595-601):
same guard as `showErrorMessage`, with the success class. -/
def showSuccessMessageOp (text : String) (s : GuideState) : GuideState :=
  match s.messageEl with
  | some m =>
    { s with messageEl := some { m with text := text, error := false, success := true },
             trace := s.trace ++ [Ev.successMessageShown text] }
  | none => s

/-- The indicator update at the top of showStep (src/visual-guide.js, lines
307-309): guarded by the indicator node existing. -/
def updateIndicatorOp (i : Nat) (s : GuideState) : GuideState :=
  match s.indicatorEl with
  | some _ =>
    let newText := "Step " ++ toString (i + 1) ++ " of " ++ toString s.steps.length
    { s with indicatorEl := some newText }
  | none => s

/-- VisualGuide.complete (src/visual-guide.js, lines 588-592): swap the
message bubble to the success variant (a no-op when none exists) and
schedule `stop()` in 2000 ms. -/
def completeOp (s : GuideState) : GuideState :=
  let s1 := showSuccessMessageOp "✅ Guide completed successfully!" s
  { s1 with trace := s1.trace ++ [Ev.completed, Ev.timerSet 2000] }

/-- VisualGuide.stop (src/visual-guide.js, lines 612-651): remove every
overlay node and reset the session fields. -/
def stopOp (s : GuideState) : GuideState :=
  { isActive := false, currentStep := 0, steps := [], guideHistory := [],
    overlayEl := false, indicatorEl := none, controlsEl := false,
    highlightEl := none, messageEl := none, pointerEl := none,
    trace := s.trace ++ [Ev.stopped] }

/-- VisualGuide.showStep run to completion (src/visual-guide.js, lines
295-351), with `nextStep`'s body (lines 561-567) inlined at the
tail-recursive skip-forward call; the recursion is bounded by `fuel`
(each skip advances the index, so `steps.length` suffices).  An
out-of-range index is a warning no-op.  On a valid index: set
`currentStep`, refresh the indicator and buttons, resolve the target.
On failure: attempt the (guarded, usually invisible) error message, sleep
2000 ms, then `nextStep()`.  On success: scroll, sleep 300 ms — and then
the call `this.highlightElement(element)` throws a TypeError (the
constructor's `highlightElement = null` instance field shadows the
prototype method), so the highlight, message bubble, pointer, history
append and auto-execute below it never run, and the async function
rejects. -/
def runShowStep (d : Doc) : Nat → Int → GuideState → GuideState
  | fuel, i, s =>
    if i < 0 ∨ (s.steps.length : Int) ≤ i then
      { s with trace := s.trace ++ [Ev.invalidStep] }
    else
      let idx := i.toNat
      let step := s.steps.getD idx default
      let s1 := { s with currentStep := idx, trace := s.trace ++ [Ev.showStepCalled idx] }
      let s2 := updateIndicatorOp idx s1
      match findStepElement d step with
      | none =>
        let s3 := showErrorMessageOp "Could not find the element. Moving to next step..."
          { s2 with trace := s2.trace ++ [Ev.elementNotFound idx] }
        let s4 := { s3 with trace := s3.trace ++ [Ev.slept 2000] }
        match fuel with
        | 0 => s4
        | fuel + 1 =>
          if s4.currentStep + 1 < s4.steps.length then
            runShowStep d fuel ((s4.currentStep : Int) + 1) s4
          else completeOp s4
      | some el =>
        { s2 with trace := s2.trace ++ [Ev.scrolled el.eid, Ev.slept 300, Ev.typeErrorThrown] }

/-- The public showStep call. -/
def showStepOp (d : Doc) (i : Int) (s : GuideState) : GuideState :=
  runShowStep d s.steps.length i s

/-- VisualGuide.nextStep (src/visual-guide.js, lines 561-567). -/
def nextStepOp (d : Doc) (s : GuideState) : GuideState :=
  if s.currentStep + 1 < s.steps.length then
    runShowStep d s.steps.length ((s.currentStep : Int) + 1) s
  else completeOp s

/-- VisualGuide.previousStep (src/visual-guide.js, lines 569-573). -/
def previousStepOp (d : Doc) (s : GuideState) : GuideState :=
  if 0 < s.currentStep then
    runShowStep d s.steps.length ((s.currentStep : Int) - 1) s
  else s

/-- VisualGuide.start (src/visual-guide.js, lines 229-252) with
createOverlay (lines 254-293) inlined: stop any active guide, reject an
empty step list, set the session fields, build the scrim, indicator and
control bar, then show step 0. -/
def startOp (d : Doc) (steps : List Step) (s : GuideState) : GuideState :=
  let s0 := if s.isActive then stopOp s else s
  if steps.isEmpty then s0
  else
    let s1 := { s0 with steps := steps, currentStep := 0, isActive := true,
                        guideHistory := [],
                        overlayEl := true,
                        indicatorEl := some ("Step 1 of " ++ toString steps.length),
                        controlsEl := true }
    runShowStep d steps.length 0 s1

/-- The timer continuations the engine schedules: the 300 ms scroll-settle
resumption inside showStep, the 2000 ms skip-on-failure resumption
(`return this.nextStep()`), the 1500 ms auto-execute resumption, and the
2000 ms auto-stop scheduled by complete. -/
inductive Cont where
  | scrollSettle (i : Nat) (eid : Nat)
  | skipWait
  | autoExec (eid : Nat) (act : String)
  | autoStop
deriving Repr, DecidableEq

/-- Firing one pending continuation against the current state.  The
scroll-settle continuation resumes at `this.highlightElement(element)`,
which throws the shadowing TypeError before touching the DOM.  The
skip-wait continuation is `return this.nextStep()`.  Auto-execute's
`executeAction` dispatches events at the page element only; it creates no
overlay node.  The auto-stop timer calls `stop()`. -/
def runCont (d : Doc) (k : Cont) (s : GuideState) : GuideState :=
  match k with
  | Cont.scrollSettle _ _ => { s with trace := s.trace ++ [Ev.typeErrorThrown] }
  | Cont.skipWait => nextStepOp d s
  | Cont.autoExec _ _ => s
  | Cont.autoStop => stopOp s

/-- No DOM node carrying a reserved `dark-voir-*` class exists. -/
def noDarkVoirNodes (s : GuideState) : Bool :=
  !s.overlayEl && s.indicatorEl.isNone && !s.controlsEl &&
  s.highlightEl.isNone && s.messageEl.isNone && s.pointerEl.isNone

/-- The state-consistency invariant of claim C10. -/
def guideInvB (s : GuideState) : Bool :=
  if s.isActive then !s.steps.isEmpty && s.currentStep < s.steps.length
  else s.currentStep == 0 && s.steps.isEmpty

/-- States reachable through any sequence of the six public operations
(each run to completion, against an arbitrary page per call). -/
inductive Reachable : GuideState → Prop where
  | init : Reachable initState
  | startC (d : Doc) (steps : List Step) {s : GuideState} :
      Reachable s → Reachable (startOp d steps s)
  | showC (d : Doc) (i : Int) {s : GuideState} :
      Reachable s → Reachable (showStepOp d i s)
  | nextC (d : Doc) {s : GuideState} : Reachable s → Reachable (nextStepOp d s)
  | prevC (d : Doc) {s : GuideState} : Reachable s → Reachable (previousStepOp d s)
  | completeC {s : GuideState} : Reachable s → Reachable (completeOp s)
  | stopC {s : GuideState} : Reachable s → Reachable (stopOp s)

/-! Concrete fixtures for the closed theorems: a baseline visible element,
pages and steps. -/

/-- A visible, in-viewport element; fixtures override individual fields. -/
def baseElem : Elem :=
  { eid := 0, tagName := "div", id := "", className := ClassName.str "",
    textContent := "", placeholder := "", title := "", value := "", name := "",
    typeAttr := "", href := "", ariaLabel := none, ariaDescribedBy := none,
    role := none, dataTestid := none,
    rect := { top := 100, bottom := 120, left := 10, right := 60, width := 50, height := 20 },
    display := "block", visibility := "visible", opacity := "1",
    disabled := false, required := false, hasOnclick := false,
    cursorPointer := false, contentEditable := false }

/-- A step that resolves by CSS selector only. -/
def mkStep (sel : Option String) (msg : String) : Step :=
  { selector := sel, text := none, ariaLabel := none, message := msg,
    description := none, action := none, value := none, autoExecute := false }

/-- An SVG element labelled "login": it matches the aria pool and is
interactive, but its `className` is the SVGAnimatedString object, so
metadata extraction throws. -/
def eSvgLogin : Elem :=
  { baseElem with eid := 1, tagName := "svg", ariaLabel := some "login",
                  className := ClassName.svgObj }

/-- A visible button whose text contains "login". -/
def eBtnLogin : Elem := { baseElem with eid := 2, tagName := "button", textContent := "login" }

/-- A page holding only the throwing SVG element. -/
def dSvgOnly : Doc := { elems := [eSvgLogin], innerWidth := 1000, innerHeight := 800,
                        scrollX := 0, scrollY := 0 }

/-- A page holding the throwing SVG element and a healthy button. -/
def dSvgBtn : Doc := { elems := [eSvgLogin, eBtnLogin], innerWidth := 1000, innerHeight := 800,
                       scrollX := 0, scrollY := 0 }

/-- An element 10000px below the viewport: it passes `isElementVisible`
(non-zero box, visible style) but fails `isElementInteractive` (outside
the viewport ± 500px margin). -/
def eFarAway : Elem :=
  { baseElem with eid := 3, id := "target",
                  rect := { top := 10000, bottom := 10020, left := 10, right := 30,
                            width := 20, height := 20 } }

/-- The page holding only the far-away element. -/
def dFar : Doc := { elems := [eFarAway], innerWidth := 1000, innerHeight := 800,
                    scrollX := 0, scrollY := 0 }

/-- Two distinct elements sharing the id "dup". -/
def eDupFirst : Elem := { baseElem with eid := 4, id := "dup" }

/-- The second element with the duplicated id. -/
def eDupSecond : Elem := { baseElem with eid := 5, tagName := "span", id := "dup" }

/-- The page with the duplicated id. -/
def dDup : Doc := { elems := [eDupFirst, eDupSecond], innerWidth := 1000, innerHeight := 800,
                    scrollX := 0, scrollY := 0 }

/-- An element whose id "w1" is unique on its page. -/
def eUniqueId : Elem := { baseElem with eid := 6, id := "w1" }

/-- The page holding only `eUniqueId`. -/
def dUniqueId : Doc := { elems := [eUniqueId], innerWidth := 1000, innerHeight := 800,
                         scrollX := 0, scrollY := 0 }

/-- The visible button `#ok` of the spec's guide scenario. -/
def eOkButton : Elem :=
  { baseElem with eid := 1, tagName := "button", id := "ok", textContent := "OK" }

/-- The page holding only `#ok` (`#missing` is absent). -/
def dOk : Doc := { elems := [eOkButton], innerWidth := 1000, innerHeight := 800,
                   scrollX := 0, scrollY := 0 }

/-- A target rect with free space top 50, bottom 200, left 10, right 10 on
the demo viewport `dSpaces`. -/
def rectSpaces : Rect := { top := 50, bottom := 100, left := 10, right := 100,
                           width := 90, height := 50 }

/-- Viewport 110 × 300 for the position demo. -/
def dSpaces : Doc := { elems := [], innerWidth := 110, innerHeight := 300,
                       scrollX := 0, scrollY := 0 }

/-- The single-step guide run of the C1 scenario: start on the page where
`#ok` resolves. -/
def okRun : GuideState := startOp dOk [mkStep (some "#ok") "Click OK"] initState

/-- The two-step guide run of the spec's C6 scenario: `#missing` absent,
`#ok` present and visible. -/
def scenarioRun : GuideState :=
  startOp dOk [mkStep (some "#missing") "", mkStep (some "#ok") "Click OK"] initState

/-- Ordering of two snapshot entries by their `isClickable` flag, `none`
entries unconstrained. -/
def metaClickOrd (a b : Option Metadata) : Bool :=
  match a, b with
  | some x, some y => !y.isClickable || x.isClickable
  | _, _ => true

/-! Helper lemmas. -/

/-- String append is left-cancellative (used for id-selector matching). -/
theorem strAppend_left_cancel {a b c : String} (h : a ++ b = a ++ c) : b = c := by
  apply String.ext
  have hd := congrArg String.data h
  rw [String.data_append, String.data_append] at hd
  exact List.append_cancel_left hd

/-- The final sort of `findRelevantElements` orders candidates by
non-increasing click score. -/
theorem findRelevantElements_sorted (d : Doc) (kws : List String) (it : String) :
    List.Pairwise (fun a b => clickScore b ≤ clickScore a)
      (findRelevantElements d kws it) := by
  unfold findRelevantElements
  haveI : IsTotal Elem (fun a b => clickScore b ≤ clickScore a) :=
    ⟨fun a b => Nat.le_total (clickScore b) (clickScore a)⟩
  haveI : IsTrans Elem (fun a b => clickScore b ≤ clickScore a) :=
    ⟨fun _ _ _ hab hbc => Nat.le_trans hbc hab⟩
  exact List.sorted_insertionSort _ _

/-- The snapshot's `isClickable` flag records `isElementClickable` of the
element whenever extraction succeeds. -/
theorem getElementMetadata_isClickable {d : Doc} {e : Elem} {m : Metadata}
    (h : getElementMetadata d e = some m) : m.isClickable = isElementClickable e := by
  unfold getElementMetadata at h
  cases hc : e.className with
  | svgObj => rw [hc] at h; exact absurd h (by simp)
  | str cls =>
    rw [hc] at h
    simp only [Option.some.injEq] at h
    rw [← h]

/-- A click-score inequality on elements transfers to the snapshots. -/
theorem metaClickOrd_of_le {d : Doc} {a b : Elem}
    (hab : clickScore b ≤ clickScore a) :
    metaClickOrd (getElementMetadata d a) (getElementMetadata d b) = true := by
  cases ha : getElementMetadata d a with
  | none => simp [metaClickOrd]
  | some x =>
    cases hb : getElementMetadata d b with
    | none => simp [metaClickOrd]
    | some y =>
      simp only [metaClickOrd, Bool.or_eq_true, Bool.not_eq_true']
      rw [getElementMetadata_isClickable ha, getElementMetadata_isClickable hb]
      by_cases hcb : isElementClickable b
      · by_cases hca : isElementClickable a
        · exact Or.inr hca
        · rw [Bool.not_eq_true] at hca
          simp [clickScore, hca, hcb] at hab
      · exact Or.inl (by simp [hcb])

/-! Claim theorems. -/

/-- Claim C3, counterexample: the claim says `extractKeywords` returns at
most 5 tokens, but the query "alpha bravo charlie delta echo foxtrot"
yields 6 — the cap to 5 keywords lives in `findRelevantElements`, not in
`extractKeywords`. -/
theorem c3_cex :
    ¬ ((extractKeywords "alpha bravo charlie delta echo foxtrot").length ≤ 5) := by
  decide

/-- Claim C3 as amended: for every query, `extractKeywords` output
contains no stopword and no token of length at most 2, and is a
subsequence of the lowercased whitespace tokenisation of the query (hence
in first-occurrence order); it is not capped at 5 — only the element
search later restricts itself to the first 5 keywords. -/
theorem c3_keywords_filtered_ordered (q : String) :
    ((extractKeywords q).all fun w => !commonWords.contains w && w.length > 2) = true ∧
    (extractKeywords q).Sublist (splitStr (fun c => c.isWhitespace) (lowerStr q)) := by
  unfold extractKeywords
  by_cases h : q == ""
  · simp [h]
  · simp only [h, if_false, Bool.false_eq_true]
    exact ⟨List.all_eq_true.mpr fun w hw => (List.mem_filter.mp hw).2,
           List.filter_sublist _⟩

/-- Claim C4, counterexample: a page whose only candidate is an SVG
element (metadata extraction throws on its `className`) yields `[null]`,
not the empty list — the offending element is not omitted; a `null`
placeholder stays in the results. -/
theorem c4_cex :
    analyzeForQuery none dSvgOnly (some "login") = [none] ∧
    analyzeForQuery none dSvgOnly (some "login") ≠ [] := by
  decide

/-- Claim C4 as amended: an exception during metadata extraction is caught
and never propagates (in the model, the only throwing operation is the
`className.split` call, and it yields exactly the `none` snapshots), all
other candidates are still returned — but the failing element contributes
a `null` entry at its position in the returned list instead of being
omitted, as the two-element page shows. -/
theorem c4_metadata_failure_null_entry :
    (∀ (d : Doc) (e : Elem),
      getElementMetadata d e = none ↔ e.className = ClassName.svgObj) ∧
    ((analyzeForQuery none dSvgBtn (some "login")).length = 2 ∧
     (analyzeForQuery none dSvgBtn (some "login")).getLast? = some none ∧
     ((analyzeForQuery none dSvgBtn (some "login")).headD none).isSome = true) := by
  refine ⟨fun d e => ?_, by decide⟩
  cases hc : e.className with
  | svgObj => simp [getElementMetadata, hc]
  | str cls => simp [getElementMetadata, hc]

/-- Claim C5, counterexample: `findStepElement` returns a hit that fails
`isElementInteractive` (the element sits 10000px below the viewport, far
outside the ± 500px margin), because the guide's own `isElementVisible`
predicate checks neither viewport proximity nor `disabled` — it is not the
same visibility predicate the Relevance Engine uses. -/
theorem c5_cex :
    findStepElement dFar (mkStep (some "#target") "") = some eFarAway ∧
    isElementInteractive dFar eFarAway = false := by
  decide

/-- A hit of the selector strategy passes `isElementVisible`. -/
theorem selStrategy_visible {d : Doc} {step : Step} {el : Elem}
    (h : selStrategy d step = some el) : isElementVisible el = true := by
  unfold selStrategy at h
  split at h
  next sel =>
    split at h
    · exact absurd h (by simp)
    · split at h
      next el2 heq =>
        split at h
        next hv =>
          rw [Option.some.injEq] at h
          rw [← h]; exact hv
        · exact absurd h (by simp)
      · exact absurd h (by simp)
  · exact absurd h (by simp)

/-- A hit of the text strategy passes `isElementVisible`. -/
theorem textStrategy_visible {d : Doc} {step : Step} {el : Elem}
    (h : textStrategy d step = some el) : isElementVisible el = true := by
  unfold textStrategy at h
  split at h
  next t =>
    split at h
    · exact absurd h (by simp)
    · have hp := List.find?_some h
      exact ((Bool.and_eq_true _ _).mp hp).2
  · exact absurd h (by simp)

/-- A hit of the aria-label strategy passes `isElementVisible`. -/
theorem ariaStrategy_visible {d : Doc} {step : Step} {el : Elem}
    (h : ariaStrategy d step = some el) : isElementVisible el = true := by
  unfold ariaStrategy at h
  split at h
  next a =>
    split at h
    · exact absurd h (by simp)
    · split at h
      next el2 heq =>
        split at h
        next hv =>
          rw [Option.some.injEq] at h
          rw [← h]; exact hv
        · exact absurd h (by simp)
      · exact absurd h (by simp)
  · exact absurd h (by simp)

/-- Claim C5 as amended: `findStepElement` tries the strategies in the
fixed order selector, then text, then aria-label, and every element it
returns passes the guide's `isElementVisible` predicate (non-zero box, not
`display:none`/`visibility:hidden`/`opacity:0`) — which, unlike the
Relevance Engine's `isElementInteractive`, checks neither viewport
proximity nor `disabled`; when no strategy yields a visible hit the result
is `none`. -/
theorem c5_find_step_element_order_visible (d : Doc) (step : Step) :
    findStepElement d step =
      ((selStrategy d step).orElse fun _ =>
        (textStrategy d step).orElse fun _ => ariaStrategy d step) ∧
    (findStepElement d step).all isElementVisible = true := by
  refine ⟨rfl, ?_⟩
  unfold findStepElement
  cases hs : selStrategy d step with
  | some el => simpa [Option.orElse] using selStrategy_visible hs
  | none =>
    cases ht : textStrategy d step with
    | some el => simpa [Option.orElse] using textStrategy_visible ht
    | none =>
      cases ha : ariaStrategy d step with
      | some el => simpa [Option.orElse] using ariaStrategy_visible ha
      | none => simp [Option.orElse, ha]

/-- Claim C7: `analyzeForQuery` fails soft — a non-string or empty query
returns the empty list — and any query returns at most 10 candidate
snapshots, ordered best (clickable) first.  The intent phrase lists are
universally quantified, so the result does not depend on the contents of
the constants file. -/
theorem c7_analyze_soft_capped_sorted (ui : Option UserIntents) (d : Doc)
    (q : Option String) :
    analyzeForQuery ui d none = [] ∧
    analyzeForQuery ui d (some "") = [] ∧
    (analyzeForQuery ui d q).length ≤ 10 ∧
    List.Pairwise (fun a b => metaClickOrd a b = true) (analyzeForQuery ui d q) := by
  refine ⟨rfl, rfl, ?_, ?_⟩
  · cases q with
    | none => simp [analyzeForQuery]
    | some s =>
      by_cases h : s == ""
      · simp [analyzeForQuery, h]
      · simp only [analyzeForQuery, h, if_false, List.length_map, Bool.false_eq_true]
        exact List.length_take_le _ _
  · cases q with
    | none => exact List.Pairwise.nil
    | some s =>
      by_cases h : s == ""
      · simp [analyzeForQuery, h]
      · simp only [analyzeForQuery, h, if_false, Bool.false_eq_true]
        refine List.pairwise_map.mpr ?_
        have hp : List.Pairwise (fun a b => clickScore b ≤ clickScore a)
            ((findRelevantElements d (extractKeywords s) (detectIntent ui s)).take 10) :=
          (findRelevantElements_sorted d (extractKeywords s)
            (detectIntent ui s)).sublist (List.take_sublist _ _)
        exact hp.imp fun hab => metaClickOrd_of_le hab

set_option maxHeartbeats 1000000 in
/-- Claim C8: for every bounding rect and viewport,
`calculateBestPosition` returns the direction with maximal free space
(`top = rect.top`, `bottom = innerHeight - rect.bottom`, `left =
rect.left`, `right = innerWidth - rect.right`), ties resolved to the first
of top, bottom, left, right; in particular free spaces
top 50 / bottom 200 / left 10 / right 10 give "bottom". -/
theorem c8_best_position :
    (∀ (d : Doc) (rect : Rect),
      calculateBestPosition d rect =
        bestPositionSpec rect.top (d.innerHeight - rect.bottom) rect.left
          (d.innerWidth - rect.right)) ∧
    calculateBestPosition dSpaces rectSpaces = "bottom" := by
  constructor
  · intro d rect
    unfold calculateBestPosition bestPositionSpec
    dsimp only [List.insertionSort]
    iterate 4 all_goals (dsimp only [List.orderedInsert, List.headD]; try split_ifs)
    all_goals first | rfl | (exfalso; omega)
  · decide

/-- Claim C9, counterexample: two distinct elements share the id "dup";
`generateSelector` on the second returns "#dup", but `querySelector` on
"#dup" resolves to the first element in document order, not to the same
element. -/
theorem c9_cex :
    generateSelector eDupSecond = "#dup" ∧
    querySelectorHash dDup "#dup" = some eDupFirst ∧
    eDupFirst ≠ eDupSecond := by
  decide

/-- Claim C9 as amended: for every element with a non-empty id,
`generateSelector` returns `"#" ++ id` (the id branch takes priority over
every other branch), and `document.querySelector` on that selector
resolves back to the same element provided the element is the first in
document order carrying that id (in particular whenever ids are unique,
as the counterexample with a duplicated id shows is necessary). -/
theorem c9_id_selector_roundtrip (d : Doc) (e : Elem) (h : ¬ (e.id = "")) :
    generateSelector e = "#" ++ e.id ∧
    (d.elems.find? (fun x => x.id == e.id) = some e →
      querySelectorHash d (generateSelector e) = some e) := by
  have hbeq : (e.id == "") = false := beq_eq_false_iff_ne.mpr h
  have hsel : generateSelector e = "#" ++ e.id := by
    unfold generateSelector
    simp [hbeq]
  refine ⟨hsel, fun hfind => ?_⟩
  rw [hsel]
  unfold querySelectorHash
  have hpred : (fun x : Elem => !(x.id == "") && ("#" ++ x.id == "#" ++ e.id)) =
      (fun x : Elem => x.id == e.id) := by
    funext x
    by_cases hx : x.id = e.id
    · simp [hx, hbeq]
    · have hne : ¬ ("#" ++ x.id = "#" ++ e.id) := fun hc => hx (strAppend_left_cancel hc)
      rw [beq_eq_false_iff_ne.mpr hx, beq_eq_false_iff_ne.mpr hne, Bool.and_false]
  rw [hpred]
  exact hfind

/-- Claim C9, witness: the round-trip at the concrete page whose only
element carries the unique id "w1". -/
theorem c9_witness :
    generateSelector eUniqueId = "#" ++ eUniqueId.id ∧
    (dUniqueId.elems.find? (fun x => x.id == eUniqueId.id) = some eUniqueId →
      querySelectorHash dUniqueId (generateSelector eUniqueId) = some eUniqueId) :=
  c9_id_selector_roundtrip dUniqueId eUniqueId (by decide)

/-! Guide-machine helper lemmas: the overlay-node predicate and the session
invariant only read a few fields, and the message/indicator helpers leave
those fields alone. -/

/-- Updating only the trace leaves the overlay-node predicate unchanged. -/
theorem noDark_withTrace (s : GuideState) (t : List Ev) :
    noDarkVoirNodes { s with trace := t } = noDarkVoirNodes s := rfl

/-- Updating only currentStep and the trace leaves the overlay-node
predicate unchanged. -/
theorem noDark_setStep (s : GuideState) (c : Nat) (t : List Ev) :
    noDarkVoirNodes { s with currentStep := c, trace := t } = noDarkVoirNodes s := rfl

/-- The indicator update cannot change whether overlay nodes exist. -/
theorem noDark_updateIndicatorOp (i : Nat) (s : GuideState) :
    noDarkVoirNodes (updateIndicatorOp i s) = noDarkVoirNodes s := by
  unfold updateIndicatorOp noDarkVoirNodes
  cases hI : s.indicatorEl <;> simp [hI]

/-- The error-message helper cannot change whether overlay nodes exist
(it only mutates an existing bubble). -/
theorem noDark_showErrorMessageOp (t : String) (s : GuideState) :
    noDarkVoirNodes (showErrorMessageOp t s) = noDarkVoirNodes s := by
  unfold showErrorMessageOp noDarkVoirNodes
  cases hM : s.messageEl <;> simp [hM]

/-- The success-message helper cannot change whether overlay nodes exist. -/
theorem noDark_showSuccessMessageOp (t : String) (s : GuideState) :
    noDarkVoirNodes (showSuccessMessageOp t s) = noDarkVoirNodes s := by
  unfold showSuccessMessageOp noDarkVoirNodes
  cases hM : s.messageEl <;> simp [hM]

/-- `complete()` cannot change whether overlay nodes exist. -/
theorem noDark_completeOp (s : GuideState) :
    noDarkVoirNodes (completeOp s) = noDarkVoirNodes s := by
  unfold completeOp
  rw [noDark_withTrace, noDark_showSuccessMessageOp]

/-- A whole `showStep` run (with its skip-forward recursion) cannot create
an overlay node when none exists: the indicator/message helpers only
mutate existing nodes, and the success continuation raises the shadowing
TypeError before the highlight, message and pointer renderers. -/
theorem noDark_runShowStep (d : Doc) :
    ∀ (fuel : Nat) (i : Int) (s : GuideState),
      noDarkVoirNodes s = true → noDarkVoirNodes (runShowStep d fuel i s) = true := by
  intro fuel
  induction fuel with
  | zero =>
    intro i s h
    rw [runShowStep]
    split
    · rw [noDark_withTrace]; exact h
    · dsimp only
      cases hf : findStepElement d (s.steps.getD i.toNat default) with
      | none =>
        simp only [noDark_withTrace, noDark_showErrorMessageOp, noDark_updateIndicatorOp,
          noDark_setStep]
        exact h
      | some el =>
        simp only [noDark_withTrace, noDark_updateIndicatorOp, noDark_setStep]
        exact h
  | succ n ih =>
    intro i s h
    rw [runShowStep]
    split
    · rw [noDark_withTrace]; exact h
    · dsimp only
      cases hf : findStepElement d (s.steps.getD i.toNat default) with
      | none =>
        simp only []
        split
        · apply ih
          simp only [noDark_withTrace, noDark_showErrorMessageOp, noDark_updateIndicatorOp,
            noDark_setStep]
          exact h
        · rw [noDark_completeOp]
          simp only [noDark_withTrace, noDark_showErrorMessageOp, noDark_updateIndicatorOp,
            noDark_setStep]
          exact h
      | some el =>
        simp only [noDark_withTrace, noDark_updateIndicatorOp, noDark_setStep]
        exact h

/-- Firing any stale continuation preserves the absence of overlay nodes. -/
theorem noDark_runCont (d : Doc) (k : Cont) (s : GuideState)
    (h : noDarkVoirNodes s = true) : noDarkVoirNodes (runCont d k s) = true := by
  cases k with
  | scrollSettle i eid => rw [runCont, noDark_withTrace]; exact h
  | skipWait =>
    rw [runCont]
    unfold nextStepOp
    split
    · exact noDark_runShowStep d _ _ _ h
    · rw [noDark_completeOp]; exact h
  | autoExec eid act => exact h
  | autoStop => rfl

/-- Any sequence of stale continuations preserves the absence of overlay
nodes. -/
theorem noDark_foldl (d : Doc) :
    ∀ (ks : List Cont) (s : GuideState), noDarkVoirNodes s = true →
      noDarkVoirNodes (ks.foldl (fun st k => runCont d k st) s) = true := by
  intro ks
  induction ks with
  | nil => intro s h; exact h
  | cons k ks ih => intro s h; exact ih _ (noDark_runCont d k s h)

/-- Claim C2: after any `stop()` call no DOM node carrying a reserved
`dark-voir-*` class remains, even when any sequence of stale timer
continuations (scroll-settle, skip-on-failure, auto-execute, auto-stop)
fires afterwards — no stale continuation resurrects overlay nodes.  In the
source this holds for a surprising reason: `stop()` removes every node it
tracks, and the scroll-settle continuation (the one that would re-render
the highlight and message) always dies at the shadowed
`this.highlightElement(element)` call before touching the DOM, while the
skip-on-failure and auto-stop continuations only mutate nodes that still
exist. -/
theorem c2_stop_stale_continuations (d : Doc) (s : GuideState) (ks : List Cont) :
    noDarkVoirNodes (ks.foldl (fun st k => runCont d k st) (stopOp s)) = true :=
  noDark_foldl d ks (stopOp s) rfl

/-- Updating only the trace leaves the session invariant unchanged. -/
theorem guideInv_withTrace (s : GuideState) (t : List Ev) :
    guideInvB { s with trace := t } = guideInvB s := rfl

/-- The indicator update leaves the session invariant unchanged. -/
theorem guideInv_updateIndicatorOp (i : Nat) (s : GuideState) :
    guideInvB (updateIndicatorOp i s) = guideInvB s := by
  unfold updateIndicatorOp
  cases hI : s.indicatorEl <;> rfl

/-- The error-message helper leaves the session invariant unchanged. -/
theorem guideInv_showErrorMessageOp (t : String) (s : GuideState) :
    guideInvB (showErrorMessageOp t s) = guideInvB s := by
  unfold showErrorMessageOp
  cases hM : s.messageEl <;> rfl

/-- The success-message helper leaves the session invariant unchanged. -/
theorem guideInv_showSuccessMessageOp (t : String) (s : GuideState) :
    guideInvB (showSuccessMessageOp t s) = guideInvB s := by
  unfold showSuccessMessageOp
  cases hM : s.messageEl <;> rfl

/-- `complete()` leaves the session invariant unchanged. -/
theorem guideInv_completeOp (s : GuideState) :
    guideInvB (completeOp s) = guideInvB s := by
  unfold completeOp
  rw [guideInv_withTrace, guideInv_showSuccessMessageOp]

/-- Entering a valid step index keeps the session invariant: the range
guard forces an active, non-empty session and a `currentStep` below
`steps.length`. -/
theorem guideInv_validStep {s : GuideState} {i : Int} {t : List Ev}
    (h : guideInvB s = true) (hrange : ¬ (i < 0 ∨ (s.steps.length : Int) ≤ i)) :
    guideInvB { s with currentStep := i.toNat, trace := t } = true := by
  push_neg at hrange
  unfold guideInvB at h ⊢
  cases hA : s.isActive with
  | false =>
    rw [hA] at h
    exfalso
    simp only [Bool.false_eq_true, if_false, Bool.and_eq_true, beq_iff_eq,
      List.isEmpty_iff] at h
    rw [h.2] at hrange
    simp only [List.length_nil, Nat.cast_zero] at hrange
    omega
  | true =>
    rw [hA] at h
    simp only [if_true, Bool.and_eq_true, decide_eq_true_eq] at h
    simp only [hA, if_true, Bool.and_eq_true, decide_eq_true_eq]
    exact ⟨h.1, by omega⟩

/-- A whole `showStep` run preserves the session invariant: an
out-of-range index is a no-op, and a valid index writes a `currentStep`
below `steps.length`. -/
theorem guideInv_runShowStep (d : Doc) :
    ∀ (fuel : Nat) (i : Int) (s : GuideState),
      guideInvB s = true → guideInvB (runShowStep d fuel i s) = true := by
  intro fuel
  induction fuel with
  | zero =>
    intro i s h
    rw [runShowStep]
    split
    · rw [guideInv_withTrace]; exact h
    · next hrange =>
      dsimp only
      cases hf : findStepElement d (s.steps.getD i.toNat default) with
      | none =>
        simp only [guideInv_withTrace, guideInv_showErrorMessageOp,
          guideInv_updateIndicatorOp]
        exact guideInv_validStep h hrange
      | some el =>
        simp only [guideInv_withTrace, guideInv_updateIndicatorOp]
        exact guideInv_validStep h hrange
  | succ n ih =>
    intro i s h
    rw [runShowStep]
    split
    · rw [guideInv_withTrace]; exact h
    · next hrange =>
      dsimp only
      cases hf : findStepElement d (s.steps.getD i.toNat default) with
      | none =>
        simp only []
        split
        · apply ih
          simp only [guideInv_withTrace, guideInv_showErrorMessageOp,
            guideInv_updateIndicatorOp]
          exact guideInv_validStep h hrange
        · rw [guideInv_completeOp]
          simp only [guideInv_withTrace, guideInv_showErrorMessageOp,
            guideInv_updateIndicatorOp]
          exact guideInv_validStep h hrange
      | some el =>
        simp only [guideInv_withTrace, guideInv_updateIndicatorOp]
        exact guideInv_validStep h hrange

/-- `stop()` always lands in a state satisfying the session invariant. -/
theorem guideInv_stopOp (s : GuideState) : guideInvB (stopOp s) = true := rfl

/-- `start()` preserves the session invariant. -/
theorem guideInv_startOp (d : Doc) (steps : List Step) {s : GuideState}
    (h : guideInvB s = true) : guideInvB (startOp d steps s) = true := by
  unfold startOp
  by_cases hE : steps.isEmpty
  · simp only [hE, if_true]
    by_cases hA : s.isActive
    · simp only [hA, if_true]
      exact guideInv_stopOp s
    · simp only [hA, Bool.false_eq_true, if_false]
      exact h
  · simp only [hE, Bool.false_eq_true, if_false]
    apply guideInv_runShowStep
    have hne : steps ≠ [] := by
      intro hc
      rw [hc] at hE
      exact hE rfl
    by_cases hA : s.isActive
    · simp only [hA, if_true]
      simp [guideInvB, hE, List.length_pos.mpr hne]
    · simp only [hA, Bool.false_eq_true, if_false]
      simp [guideInvB, hE, List.length_pos.mpr hne]

/-- `nextStep()` preserves the session invariant. -/
theorem guideInv_nextStepOp (d : Doc) {s : GuideState}
    (h : guideInvB s = true) : guideInvB (nextStepOp d s) = true := by
  unfold nextStepOp
  split
  · exact guideInv_runShowStep d _ _ _ h
  · rw [guideInv_completeOp]; exact h

/-- `previousStep()` preserves the session invariant. -/
theorem guideInv_previousStepOp (d : Doc) {s : GuideState}
    (h : guideInvB s = true) : guideInvB (previousStepOp d s) = true := by
  unfold previousStepOp
  split
  · exact guideInv_runShowStep d _ _ _ h
  · exact h

/-- Claim C10: in every state reachable through any sequence of start,
showStep, nextStep, previousStep, complete and stop calls, the guide
engine satisfies: when `isActive` is false, `currentStep = 0` and `steps`
is empty; when `isActive` is true, `steps` is non-empty and
`currentStep < steps.length`. -/
theorem c10_guide_invariant (s : GuideState) (h : Reachable s) :
    guideInvB s = true := by
  induction h with
  | init => rfl
  | startC d steps hr ih => exact guideInv_startOp d steps ih
  | showC d i hr ih => exact guideInv_runShowStep d _ _ _ ih
  | nextC d hr ih => exact guideInv_nextStepOp d ih
  | prevC d hr ih => exact guideInv_previousStepOp d ih
  | completeC hr ih => rw [guideInv_completeOp]; exact ih
  | stopC hr ih => exact guideInv_stopOp _

/-- Claim C10, witness: the invariant at the freshly constructed engine. -/
theorem c10_witness : guideInvB initState = true :=
  c10_guide_invariant initState Reachable.init

/-- Claim C1 (code bug), evaluated at the failing input
steps = [{selector:"#ok", message:"Click OK"}] with `#ok` present and
visible: `start()` runs showStep(0), which scrolls, sleeps 300 ms and then
throws the shadowing TypeError at `this.highlightElement(element)` (the
constructor's instance field shadows the method), so no highlight node, no
message bubble and no history entry is ever produced; the subsequent
`nextStep()` still reaches `complete()` and the 2000 ms auto-stop timer
returns the engine to Idle.  The claim's "each rendering the step's
highlight and message" is false on the code. -/
theorem c1_shadowed_highlight_run :
    okRun.trace = [Ev.showStepCalled 0, Ev.scrolled 1, Ev.slept 300,
      Ev.typeErrorThrown] ∧
    okRun.highlightEl = none ∧ okRun.messageEl = none ∧ okRun.guideHistory = [] ∧
    Ev.completed ∈ (nextStepOp dOk okRun).trace ∧
    Ev.timerSet 2000 ∈ (nextStepOp dOk okRun).trace ∧
    (runCont dOk Cont.autoStop (nextStepOp dOk okRun)).isActive = false ∧
    (runCont dOk Cont.autoStop (nextStepOp dOk okRun)).steps = [] := by
  decide

/-- Claim C6 (code bug), evaluated at the spec's scenario
steps = [{selector:"#missing"}, {selector:"#ok", message:"Click OK"}] with
`#missing` absent and `#ok` present and visible: the failure path shows no
error bubble (`showErrorMessage` only mutates an existing bubble and none
exists on a first-step failure — indeed none can ever exist), it waits
2000 ms and advances; the success path for `#ok` then throws the shadowing
TypeError before the highlight and message renderers, so `#ok` is never
highlighted and "Click OK" is never displayed. -/
theorem c6_scenario_run :
    scenarioRun.trace = [Ev.showStepCalled 0, Ev.elementNotFound 0, Ev.slept 2000,
      Ev.showStepCalled 1, Ev.scrolled 1, Ev.slept 300, Ev.typeErrorThrown] ∧
    (Ev.errorMessageShown "Could not find the element. Moving to next step...")
      ∉ scenarioRun.trace ∧
    scenarioRun.messageEl = none ∧ scenarioRun.highlightEl = none := by
  decide

end DarkVoir
